import Mathlib

/-!
Shallow embedding of the CSV-driven batch visual-comparison workflow in
`tests/automated-screenshot-comparison.test.ts`: the CSV entry reader
(`readCsvFile`), the per-entry comparison orchestrator
(`performEyesComparison`, `establishBaseline`, the Step 3 / Step 4 loops)
and the summary aggregation (`TestSummary`, and the success-rate
computation of `generateSummaryReport`).

The external collaborators (the Playwright page and the Applitools Eyes
client) are modelled by an outcome record per entry (`EntryBehavior`)
giving the result of each external call; a thrown JS exception is modelled
by its message string.  Wall-clock fields of the summary (`startTime`,
`endTime`, `duration`) are not modelled; no claim mentions them.
-/

/-- One row of a parsed CSV file as delivered by the `csv-parser` stream:
each of the `url` and `name` columns is either absent (`none`, JS
`undefined`) or a string (possibly empty).  JS truthiness of such a field
is: present and non-empty. -/
structure CsvRow where
  url : Option String
  name : Option String
  deriving Repr, DecidableEq

/-- Mirrors `interface UrlEntry` with string fields url and name. -/
structure UrlEntry where
  url : String
  name : String
  deriving Repr, DecidableEq

/-- Mirrors `interface ComparisonResult` (lines 24-35 of the test file).  JS
numbers holding comparison counts are modelled as `Int`; the optional
fields `appUrl?` and `error?` as `Option String`. -/
structure ComparisonResult where
  url : String
  testName : String
  status : String
  appUrl : Option String
  stepsInfo : Int
  «matches» : Int
  mismatches : Int
  missing : Int
  success : Bool
  error : Option String
  deriving Repr, DecidableEq

/-- Mirrors `interface TestSummary` (lines 37-49), without the wall-clock fields
`startTime`, `endTime`, `duration`. -/
structure TestSummary where
  totalUrls : Nat
  successfulComparisons : Nat
  failedComparisons : Nat
  totalMatches : Int
  totalMismatches : Int
  totalMissing : Int
  errors : List String
  eyesResults : List ComparisonResult
  deriving Repr, DecidableEq

/-- The summary as initialized in `beforeAll`: every counter zero, empty
lists. -/
def initialSummary : TestSummary :=
  { totalUrls := 0
    successfulComparisons := 0
    failedComparisons := 0
    totalMatches := 0
    totalMismatches := 0
    totalMissing := 0
    errors := []
    eyesResults := [] }

/-- The value returned by `eyes.close()` when it is not `null`: the
`TestResults` accessors used by the code (`getStatus`, `getUrl`,
`getSteps`, `getMatches`, `getMismatches`, `getMissing`). -/
structure EyesResults where
  status : String
  url : Option String
  steps : Int
  «matches» : Int
  mismatches : Int
  missing : Int
  deriving Repr, DecidableEq

/-- Outcome of one external call that either succeeds with no interesting
value or throws an exception carrying a message. -/
inductive StepOutcome where
  | ok
  | throw (msg : String)
  deriving Repr, DecidableEq

/-- The behaviour of the external collaborators (page + Eyes client)
during one entry: the outcome of `eyes.open`, of `page.goto` (together
with the waits, which cannot fail independently in the code), of
`eyes.check`, and of `eyes.close` — which may throw (`Except.error msg`),
or return `null` (`Except.ok none`), or return a results object
(`Except.ok (some r)`).  `abortThrows` records whether a best-effort
`eyes.abortIfNotClosed` would throw; in the code that exception is caught
and only logged, so it influences no observable state. -/
structure EntryBehavior where
  openOutcome : StepOutcome
  gotoOutcome : StepOutcome
  checkOutcome : StepOutcome
  closeOutcome : Except String (Option EyesResults)
  abortThrows : Bool

/-- Padding behaviour used when an oracle list is exhausted (the oracle is
total: every external call has some outcome). -/
def defaultBehavior : EntryBehavior :=
  { openOutcome := .ok
    gotoOutcome := .ok
    checkOutcome := .ok
    closeOutcome := .ok none
    abortThrows := false }

/-- Function `readCsvFile` (lines 240-254): keep a row iff `data.url && data.name`
is truthy, i.e. both fields are present and non-empty; rows are kept in
file order, a malformed row is skipped and never fails the read. -/
def readCsvFile (rows : List CsvRow) : List UrlEntry :=
  rows.filterMap fun r =>
    match r.url, r.name with
    | some u, some n => if u ≠ "" ∧ n ≠ "" then some ⟨u, n⟩ else none
    | _, _ => none

/-- The `const result = { ... }` initializer at the top of
`performEyesComparison` (lines 310-319). -/
def initResult (entry : UrlEntry) : ComparisonResult :=
  { url := entry.url
    testName := entry.name
    status := "Failed"
    appUrl := none
    stepsInfo := 0
    «matches» := 0
    mismatches := 0
    missing := 0
    success := false
    error := none }

/-- The `catch` block of `performEyesComparison` (lines 378-394): when
`eyesOpened` is true, `eyes.abortIfNotClosed()` is invoked once (its own
failure only logged); the result records the error message and
`success = false`; `failedComparisons` is incremented and a line is pushed
onto `errors`.  The returned `Nat` counts invocations of
`abortIfNotClosed` for this entry. -/
def catchComparison (entry : UrlEntry) (base : ComparisonResult)
    (eyesOpened : Bool) (msg : String) (s : TestSummary) :
    ComparisonResult × TestSummary × Nat :=
  (({ base with error := some msg, success := false }),
   { s with
      failedComparisons := s.failedComparisons + 1
      errors := s.errors ++
        ["Failed Eyes comparison for " ++ entry.url ++ ": " ++ msg] },
   if eyesOpened then 1 else 0)

/-- Function `performEyesComparison` (lines 306-397).  Returns the
ComparisonResult, the updated summary, and the number of
`abortIfNotClosed` invocations for this entry.  Control flow mirrors the
source: open → (eyesOpened := true) → goto → settle wait → check → close →
(eyesOpened := false) → if results null, throw
"No results returned from Eyes"; any thrown exception lands in the catch
block above. -/
def performEyesComparison (entry : UrlEntry) (b : EntryBehavior)
    (s : TestSummary) : ComparisonResult × TestSummary × Nat :=
  let result := initResult entry
  match b.openOutcome with
  | .throw msg => catchComparison entry result false msg s
  | .ok =>
    match b.gotoOutcome with
    | .throw msg => catchComparison entry result true msg s
    | .ok =>
      match b.checkOutcome with
      | .throw msg => catchComparison entry result true msg s
      | .ok =>
        match b.closeOutcome with
        | .error msg => catchComparison entry result true msg s
        | .ok none =>
          catchComparison entry result false "No results returned from Eyes" s
        | .ok (some er) =>
          let result :=
            { result with
                status := er.status
                appUrl := er.url
                stepsInfo := er.steps
                «matches» := er.matches
                mismatches := er.mismatches
                missing := er.missing
                success := er.status == "Passed" }
          let s :=
            if result.success then
              { s with successfulComparisons := s.successfulComparisons + 1 }
            else
              { s with failedComparisons := s.failedComparisons + 1 }
          let s :=
            { s with
                totalMatches := s.totalMatches + result.matches
                totalMismatches := s.totalMismatches + result.mismatches
                totalMissing := s.totalMissing + result.missing }
          (result, s, 0)

/-- Function `establishBaseline` (lines 256-304): same open/goto/check/close
sequence, but the close result is only logged (`results?.getStatus()`), so
a `null` close result is not an error here; any failure appends one line
to `errors` and, when the session was open, aborts it.  Returns the
updated summary and the number of `abortIfNotClosed` invocations. -/
def establishBaseline (entry : UrlEntry) (b : EntryBehavior)
    (s : TestSummary) : TestSummary × Nat :=
  let fail := fun (opened : Bool) (msg : String) =>
    ({ s with
        errors := s.errors ++
          ["Failed to establish baseline for " ++ entry.url ++ ": " ++ msg] },
     if opened then (1 : Nat) else 0)
  match b.openOutcome with
  | .throw msg => fail false msg
  | .ok =>
    match b.gotoOutcome with
    | .throw msg => fail true msg
    | .ok =>
      match b.checkOutcome with
      | .throw msg => fail true msg
      | .ok =>
        match b.closeOutcome with
        | .error msg => fail true msg
        | .ok _ => (s, 0)

/-- The baseline loop of Step 3 (lines 206-208): `establishBaseline` for
each entry in order; behaviours are consumed in lockstep, padded with
`defaultBehavior`. -/
def runBaselines : List UrlEntry → List EntryBehavior → TestSummary → TestSummary
  | [], _, s => s
  | e :: es, bs, s =>
      runBaselines es bs.tail (establishBaseline e (bs.headD defaultBehavior) s).1

/-- Step 3 (lines 202-207): read the source CSV, add its length to
`totalUrls`, then establish baselines. -/
def step3 (sourceRows : List CsvRow) (bs : List EntryBehavior)
    (s : TestSummary) : TestSummary :=
  let urls := readCsvFile sourceRows
  runBaselines urls bs { s with totalUrls := s.totalUrls + urls.length }

/-- The comparison loop of Step 4 (lines 227-230): for each entry in
order, run `performEyesComparison` and push its result onto
`eyesResults`. -/
def runComparisons : List UrlEntry → List EntryBehavior → TestSummary → TestSummary
  | [], _, s => s
  | e :: es, bs, s =>
      let out := performEyesComparison e (bs.headD defaultBehavior) s
      runComparisons es bs.tail
        { out.2.1 with eyesResults := out.2.1.eyesResults ++ [out.1] }

/-- Step 4 (lines 224-230): read the target CSV and run the comparison
loop over its entries. -/
def step4 (targetRows : List CsvRow) (bs : List EntryBehavior)
    (s : TestSummary) : TestSummary :=
  runComparisons (readCsvFile targetRows) bs s

/-- A whole batch run as the test suite performs it: Step 3 over the
source CSV followed by Step 4 over the target CSV, starting from the
summary initialized in `beforeAll`. -/
def fullRun (sourceRows targetRows : List CsvRow)
    (baselineBs comparisonBs : List EntryBehavior) : TestSummary :=
  step4 targetRows comparisonBs (step3 sourceRows baselineBs initialSummary)

/-- The line `const totalComparisons = testSummary.successfulComparisons +
testSummary.failedComparisons` (line 402). -/
def totalComparisons (s : TestSummary) : Nat :=
  s.successfulComparisons + s.failedComparisons

/-- The success-rate value of `generateSummaryReport` (line 403): the JS
number `successfulComparisons / totalComparisons * 100`, computed only
when `totalComparisons > 0`; as a rational, with the guard reproduced. -/
def successRate (s : TestSummary) : ℚ :=
  if 0 < totalComparisons s then
    (s.successfulComparisons : ℚ) / (totalComparisons s : ℚ) * 100
  else 0

/-- Models `Number.prototype.toFixed(2)` on a rational (round half away from
zero, two decimal digits), up to binary floating-point rounding of the
argument. -/
def toFixed2 (q : ℚ) : String :=
  let n : Int := if q < 0 then -⌊-q * 100 + 1/2⌋ else ⌊q * 100 + 1/2⌋
  let sign := if n < 0 then "-" else ""
  let m := n.natAbs
  let frac := m % 100
  sign ++ toString (m / 100) ++ "." ++
    (if frac < 10 then "0" else "") ++ toString frac

/-- The rendered success-rate string of `generateSummaryReport` (line
403): `(rate).toFixed(2)` when `totalComparisons > 0`, the literal string
"0" otherwise. -/
def successRateDisplay (s : TestSummary) : String :=
  if 0 < totalComparisons s then toFixed2 (successRate s) else "0"

/-- The success-rate line of the report (line 417):
`- **Success Rate**: ${successRate}%`. -/
def successRateLine (s : TestSummary) : String :=
  "- **Success Rate**: " ++ successRateDisplay s ++ "%"

/-! ### Derived views used to state the claims -/

/-- The remote verdict obtained for an entry, when every step up to and
including `eyes.close` succeeded and `close` returned a non-null results
object; `none` otherwise (some step threw, or `close` returned null). -/
def remoteVerdict (b : EntryBehavior) : Option EyesResults :=
  match b.openOutcome, b.gotoOutcome, b.checkOutcome, b.closeOutcome with
  | .ok, .ok, .ok, .ok (some er) => some er
  | _, _, _, _ => none

/-- The message of the local failure an entry runs into, if any: the first
thrown message along open → goto → check → close, or the synthesized
"No results returned from Eyes" when `close` returns null. -/
def localError (b : EntryBehavior) : Option String :=
  match b.openOutcome with
  | .throw msg => some msg
  | .ok =>
    match b.gotoOutcome with
    | .throw msg => some msg
    | .ok =>
      match b.checkOutcome with
      | .throw msg => some msg
      | .ok =>
        match b.closeOutcome with
        | .error msg => some msg
        | .ok none => some "No results returned from Eyes"
        | .ok (some _) => none

/-- The ComparisonResult an entry produces, as a function of the entry and
its own behaviour only. -/
def comparisonResultOf (entry : UrlEntry) (b : EntryBehavior) :
    ComparisonResult :=
  (performEyesComparison entry b initialSummary).1

/-- The list of results a comparison loop over the given entries and
behaviours produces, one per entry, in order. -/
def listResultsOf : List UrlEntry → List EntryBehavior → List ComparisonResult
  | [], _ => []
  | e :: es, bs => comparisonResultOf e (bs.headD defaultBehavior) :: listResultsOf es bs.tail

/-- Whether a row passes the truthiness filter of `readCsvFile`. -/
def validRow (r : CsvRow) : Bool :=
  match r.url, r.name with
  | some u, some n => u ≠ "" && n ≠ ""
  | _, _ => false

/-- The entry a valid row yields. -/
def rowEntry (r : CsvRow) : UrlEntry :=
  { url := r.url.getD "", name := r.name.getD "" }

/-! ### Per-entry lemmas about `performEyesComparison` -/

lemma perform_fst (e : UrlEntry) (b : EntryBehavior) (s : TestSummary) :
    (performEyesComparison e b s).1 = comparisonResultOf e b := by
  obtain ⟨o, g, c, cl, _⟩ := b
  cases o <;> cases g <;> cases c <;> rcases cl with m | _ | er <;> rfl

lemma perform_eyesResults (e : UrlEntry) (b : EntryBehavior) (s : TestSummary) :
    (performEyesComparison e b s).2.1.eyesResults = s.eyesResults := by
  obtain ⟨o, g, c, cl, _⟩ := b
  cases o <;> cases g <;> cases c <;> rcases cl with m | _ | er <;>
    simp [performEyesComparison, catchComparison] <;>
    split <;> simp

lemma perform_totalUrls (e : UrlEntry) (b : EntryBehavior) (s : TestSummary) :
    (performEyesComparison e b s).2.1.totalUrls = s.totalUrls := by
  obtain ⟨o, g, c, cl, _⟩ := b
  cases o <;> cases g <;> cases c <;> rcases cl with m | _ | er <;>
    simp [performEyesComparison, catchComparison] <;>
    split <;> simp

lemma perform_succ (e : UrlEntry) (b : EntryBehavior) (s : TestSummary) :
    (performEyesComparison e b s).2.1.successfulComparisons =
      s.successfulComparisons +
        (if (performEyesComparison e b s).1.success then 1 else 0) := by
  obtain ⟨o, g, c, cl, _⟩ := b
  cases o <;> cases g <;> cases c <;> rcases cl with m | _ | er <;>
    simp [performEyesComparison, catchComparison, initResult] <;>
    split <;> simp

lemma perform_failed (e : UrlEntry) (b : EntryBehavior) (s : TestSummary) :
    (performEyesComparison e b s).2.1.failedComparisons =
      s.failedComparisons +
        (if (performEyesComparison e b s).1.success then 0 else 1) := by
  obtain ⟨o, g, c, cl, _⟩ := b
  cases o <;> cases g <;> cases c <;> rcases cl with m | _ | er <;>
    simp [performEyesComparison, catchComparison, initResult] <;>
    split <;> simp

lemma perform_totalMatches (e : UrlEntry) (b : EntryBehavior) (s : TestSummary) :
    (performEyesComparison e b s).2.1.totalMatches =
      s.totalMatches + (performEyesComparison e b s).1.matches := by
  obtain ⟨o, g, c, cl, _⟩ := b
  cases o <;> cases g <;> cases c <;> rcases cl with m | _ | er <;>
    simp [performEyesComparison, catchComparison, initResult] <;>
    split <;> simp

lemma perform_totalMismatches (e : UrlEntry) (b : EntryBehavior) (s : TestSummary) :
    (performEyesComparison e b s).2.1.totalMismatches =
      s.totalMismatches + (performEyesComparison e b s).1.mismatches := by
  obtain ⟨o, g, c, cl, _⟩ := b
  cases o <;> cases g <;> cases c <;> rcases cl with m | _ | er <;>
    simp [performEyesComparison, catchComparison, initResult] <;>
    split <;> simp

lemma perform_totalMissing (e : UrlEntry) (b : EntryBehavior) (s : TestSummary) :
    (performEyesComparison e b s).2.1.totalMissing =
      s.totalMissing + (performEyesComparison e b s).1.missing := by
  obtain ⟨o, g, c, cl, _⟩ := b
  cases o <;> cases g <;> cases c <;> rcases cl with m | _ | er <;>
    simp [performEyesComparison, catchComparison, initResult] <;>
    split <;> simp

lemma result_error_eq_localError (e : UrlEntry) (b : EntryBehavior) :
    (comparisonResultOf e b).error = localError b := by
  obtain ⟨o, g, c, cl, _⟩ := b
  cases o <;> cases g <;> cases c <;> rcases cl with m | _ | er <;>
    simp [comparisonResultOf, performEyesComparison, catchComparison,
      initResult, localError]

lemma result_of_localError (e : UrlEntry) (b : EntryBehavior) (m : String)
    (h : localError b = some m) :
    comparisonResultOf e b = { initResult e with error := some m } := by
  obtain ⟨o, g, c, cl, _⟩ := b
  cases o <;> cases g <;> cases c <;> rcases cl with m | _ | er <;>
    simp_all [comparisonResultOf, performEyesComparison, catchComparison,
      initResult, localError]

lemma result_of_remoteVerdict (e : UrlEntry) (b : EntryBehavior)
    (er : EyesResults) (h : remoteVerdict b = some er) :
    comparisonResultOf e b =
      { url := e.url
        testName := e.name
        status := er.status
        appUrl := er.url
        stepsInfo := er.steps
        «matches» := er.matches
        mismatches := er.mismatches
        missing := er.missing
        success := er.status == "Passed"
        error := none } := by
  obtain ⟨o, g, c, cl, _⟩ := b
  cases o <;> cases g <;> cases c <;> rcases cl with m | _ | er <;>
    simp_all [comparisonResultOf, performEyesComparison, catchComparison,
      initResult, remoteVerdict]

lemma localError_isSome_iff (b : EntryBehavior) :
    (localError b).isSome ↔ remoteVerdict b = none := by
  obtain ⟨o, g, c, cl, _⟩ := b
  cases o <;> cases g <;> cases c <;> rcases cl with m | _ | er <;>
    simp [localError, remoteVerdict]

/-! ### Lemmas about the baseline pass (Step 3) -/

lemma establishBaseline_counters (e : UrlEntry) (b : EntryBehavior)
    (s : TestSummary) :
    (establishBaseline e b s).1.totalUrls = s.totalUrls ∧
    (establishBaseline e b s).1.successfulComparisons = s.successfulComparisons ∧
    (establishBaseline e b s).1.failedComparisons = s.failedComparisons ∧
    (establishBaseline e b s).1.totalMatches = s.totalMatches ∧
    (establishBaseline e b s).1.totalMismatches = s.totalMismatches ∧
    (establishBaseline e b s).1.totalMissing = s.totalMissing ∧
    (establishBaseline e b s).1.eyesResults = s.eyesResults := by
  obtain ⟨o, g, c, cl, _⟩ := b
  cases o <;> cases g <;> cases c <;> rcases cl with m | _ | er <;>
    simp [establishBaseline]

lemma runBaselines_counters (es : List UrlEntry) (bs : List EntryBehavior)
    (s : TestSummary) :
    (runBaselines es bs s).totalUrls = s.totalUrls ∧
    (runBaselines es bs s).successfulComparisons = s.successfulComparisons ∧
    (runBaselines es bs s).failedComparisons = s.failedComparisons ∧
    (runBaselines es bs s).totalMatches = s.totalMatches ∧
    (runBaselines es bs s).totalMismatches = s.totalMismatches ∧
    (runBaselines es bs s).totalMissing = s.totalMissing ∧
    (runBaselines es bs s).eyesResults = s.eyesResults := by
  induction es generalizing bs s with
  | nil => simp [runBaselines]
  | cons e es ih =>
      have h := establishBaseline_counters e (bs.headD defaultBehavior) s
      have h2 := ih bs.tail (establishBaseline e (bs.headD defaultBehavior) s).1
      simp only [runBaselines]
      exact ⟨h2.1.trans h.1, h2.2.1.trans h.2.1, h2.2.2.1.trans h.2.2.1,
        h2.2.2.2.1.trans h.2.2.2.1, h2.2.2.2.2.1.trans h.2.2.2.2.1,
        h2.2.2.2.2.2.1.trans h.2.2.2.2.2.1, h2.2.2.2.2.2.2.trans h.2.2.2.2.2.2⟩

/-! ### Lemmas about the comparison loop (Step 4) -/

lemma listResultsOf_length (es : List UrlEntry) (bs : List EntryBehavior) :
    (listResultsOf es bs).length = es.length := by
  induction es generalizing bs with
  | nil => rfl
  | cons e es ih => simp [listResultsOf, ih]

lemma runComparisons_eyesResults (es : List UrlEntry) (bs : List EntryBehavior)
    (s : TestSummary) :
    (runComparisons es bs s).eyesResults = s.eyesResults ++ listResultsOf es bs := by
  induction es generalizing bs s with
  | nil => simp [runComparisons, listResultsOf]
  | cons e es ih =>
      simp [runComparisons, listResultsOf, ih, perform_eyesResults, perform_fst]

lemma runComparisons_totalUrls (es : List UrlEntry) (bs : List EntryBehavior)
    (s : TestSummary) :
    (runComparisons es bs s).totalUrls = s.totalUrls := by
  induction es generalizing bs s with
  | nil => rfl
  | cons e es ih =>
      simp [runComparisons, ih, perform_totalUrls]

lemma runComparisons_succ (es : List UrlEntry) (bs : List EntryBehavior)
    (s : TestSummary) :
    (runComparisons es bs s).successfulComparisons =
      s.successfulComparisons + (listResultsOf es bs).countP (fun r => r.success) := by
  induction es generalizing bs s with
  | nil => simp [runComparisons, listResultsOf]
  | cons e es ih =>
      simp [runComparisons, listResultsOf, ih, List.countP_cons, perform_succ,
        perform_fst]
      omega

lemma runComparisons_failed (es : List UrlEntry) (bs : List EntryBehavior)
    (s : TestSummary) :
    (runComparisons es bs s).failedComparisons =
      s.failedComparisons + (listResultsOf es bs).countP (fun r => !r.success) := by
  induction es generalizing bs s with
  | nil => simp [runComparisons, listResultsOf]
  | cons e es ih =>
      simp [runComparisons, listResultsOf, ih, List.countP_cons, perform_failed,
        perform_fst]
      cases hs : (comparisonResultOf e (bs.head?.getD defaultBehavior)).success <;>
        simp [hs] <;> omega

lemma runComparisons_totalMatches (es : List UrlEntry) (bs : List EntryBehavior)
    (s : TestSummary) :
    (runComparisons es bs s).totalMatches =
      s.totalMatches + ((listResultsOf es bs).map (fun r => r.matches)).sum := by
  induction es generalizing bs s with
  | nil => simp [runComparisons, listResultsOf]
  | cons e es ih =>
      simp [runComparisons, listResultsOf, ih, perform_totalMatches, perform_fst]
      ring

lemma runComparisons_totalMismatches (es : List UrlEntry) (bs : List EntryBehavior)
    (s : TestSummary) :
    (runComparisons es bs s).totalMismatches =
      s.totalMismatches + ((listResultsOf es bs).map (fun r => r.mismatches)).sum := by
  induction es generalizing bs s with
  | nil => simp [runComparisons, listResultsOf]
  | cons e es ih =>
      simp [runComparisons, listResultsOf, ih, perform_totalMismatches, perform_fst]
      ring

lemma runComparisons_totalMissing (es : List UrlEntry) (bs : List EntryBehavior)
    (s : TestSummary) :
    (runComparisons es bs s).totalMissing =
      s.totalMissing + ((listResultsOf es bs).map (fun r => r.missing)).sum := by
  induction es generalizing bs s with
  | nil => simp [runComparisons, listResultsOf]
  | cons e es ih =>
      simp [runComparisons, listResultsOf, ih, perform_totalMissing, perform_fst]
      ring

lemma listResultsOf_getD (es : List UrlEntry) (bs : List EntryBehavior)
    (i : Nat) (h : i < es.length) (d : ComparisonResult) (de : UrlEntry) :
    (listResultsOf es bs).getD i d =
      comparisonResultOf (es.getD i de) (bs.getD i defaultBehavior) := by
  induction es generalizing bs i with
  | nil => simp at h
  | cons e es ih =>
      cases i with
      | zero => cases bs <;> simp [listResultsOf]
      | succ i =>
          have hb : bs.tail.getD i defaultBehavior =
              bs.getD (i + 1) defaultBehavior := by
            cases bs <;> rfl
          have hi : i < es.length := by simpa using h
          simp only [listResultsOf, List.getD_cons_succ]
          rw [ih bs.tail i hi, hb]

lemma result_entry_fields (e : UrlEntry) (b : EntryBehavior) :
    (comparisonResultOf e b).url = e.url ∧
    (comparisonResultOf e b).testName = e.name := by
  obtain ⟨o, g, c, cl, _⟩ := b
  cases o <;> cases g <;> cases c <;> rcases cl with m | _ | er <;>
    simp [comparisonResultOf, performEyesComparison, catchComparison, initResult]

lemma result_success_eq_status (e : UrlEntry) (b : EntryBehavior) :
    (comparisonResultOf e b).success =
      ((comparisonResultOf e b).status == "Passed") := by
  obtain ⟨o, g, c, cl, _⟩ := b
  cases o <;> cases g <;> cases c <;> rcases cl with m | _ | er <;>
    simp [comparisonResultOf, performEyesComparison, catchComparison, initResult]

lemma mem_listResultsOf (es : List UrlEntry) (bs : List EntryBehavior)
    (r : ComparisonResult) (h : r ∈ listResultsOf es bs) :
    ∃ e b, r = comparisonResultOf e b := by
  induction es generalizing bs with
  | nil => simp [listResultsOf] at h
  | cons e es ih =>
      simp only [listResultsOf, List.mem_cons] at h
      rcases h with h | h
      · exact ⟨e, bs.headD defaultBehavior, h⟩
      · exact ih bs.tail h

lemma countP_self_add_not (l : List ComparisonResult)
    (p : ComparisonResult → Bool) :
    l.countP p + l.countP (fun r => !p r) = l.length := by
  induction l with
  | nil => simp
  | cons a l ih =>
      by_cases h : p a <;> simp [List.countP_cons, h] <;> omega

/-! ### Concrete fixtures -/

/-- The "Good" entry of the scenario in the spec. -/
def entryGood : UrlEntry := { url := "https://good.example", name := "Good" }

/-- The "Bad" entry of the scenario in the spec. -/
def entryBad : UrlEntry := { url := "https://bad.example", name := "Bad" }

/-- A remote verdict: Passed, one match. -/
def passedEyes : EyesResults :=
  { status := "Passed"
    url := some "https://eyes.example/app/batches/1"
    steps := 1
    «matches» := 1
    mismatches := 0
    missing := 0 }

/-- A remote verdict: Unresolved, one match. -/
def unresolvedEyes : EyesResults := { passedEyes with status := "Unresolved" }

/-- A malformed remote results object carrying a negative match count. -/
def negativeEyes : EyesResults := { passedEyes with «matches» := -5 }

/-- All calls succeed and `close` returns a Passed verdict. -/
def okBehavior : EntryBehavior :=
  { openOutcome := .ok
    gotoOutcome := .ok
    checkOutcome := .ok
    closeOutcome := .ok (some passedEyes)
    abortThrows := false }

/-- Navigation throws after the session was opened. -/
def timeoutBehavior : EntryBehavior :=
  { okBehavior with gotoOutcome := .throw "Timeout 60000ms exceeded" }

/-- Behaviour where `close` succeeds but returns a null results object. -/
def nullCloseBehavior : EntryBehavior :=
  { okBehavior with closeOutcome := .ok none }

/-- Behaviour where `close` throws after the session was opened. -/
def closeThrowBehavior : EntryBehavior :=
  { okBehavior with closeOutcome := .error "close failed" }

/-- All calls succeed and `close` returns an Unresolved verdict. -/
def unresolvedBehavior : EntryBehavior :=
  { okBehavior with closeOutcome := .ok (some unresolvedEyes) }

/-- All calls succeed and `close` returns a verdict with a negative count. -/
def negativeBehavior : EntryBehavior :=
  { okBehavior with closeOutcome := .ok (some negativeEyes) }

/-- CSV row of the Good entry. -/
def rowGood : CsvRow := { url := some "https://good.example", name := some "Good" }

/-- CSV row of the Bad entry. -/
def rowBad : CsvRow := { url := some "https://bad.example", name := some "Bad" }

/-- Malformed CSV row: the name column is missing. -/
def rowNoName : CsvRow := { url := some "https://x.example", name := none }

/-! ### Claim theorems -/

/-- Claim C2, counterexample: a navigation failure produces a result that
carries an error message while its status is the initialized default
"Failed", not "Error" — so "status == Error iff errorMessage is present"
fails on the code. -/
theorem C2_counterexample :
    (comparisonResultOf entryBad timeoutBehavior).error.isSome = true ∧
    (comparisonResultOf entryBad timeoutBehavior).status ≠ "Error" := by
  decide

/-- Claim C2 as amended: for every produced ComparisonResult, an error
message is present iff no remote verdict was obtained, in which case the
status holds its initialized default "Failed" (the code has no distinct
"Error" status), the counts are all 0 and success is false; a result that
carries a remote verdict never has an error message. -/
theorem C2_result_invariant (e : UrlEntry) (b : EntryBehavior) :
    ((comparisonResultOf e b).error.isSome ↔ remoteVerdict b = none) ∧
    (remoteVerdict b = none →
      (comparisonResultOf e b).status = "Failed" ∧
      (comparisonResultOf e b).matches = 0 ∧
      (comparisonResultOf e b).mismatches = 0 ∧
      (comparisonResultOf e b).missing = 0 ∧
      (comparisonResultOf e b).success = false) ∧
    (∀ er, remoteVerdict b = some er → (comparisonResultOf e b).error = none) := by
  refine ⟨?_, ?_, ?_⟩
  · rw [result_error_eq_localError]
    exact localError_isSome_iff b
  · intro h
    have hs : (localError b).isSome := (localError_isSome_iff b).mpr h
    obtain ⟨m, hm⟩ := Option.isSome_iff_exists.mp hs
    rw [result_of_localError e b m hm]
    simp [initResult]
  · intro er h
    rw [result_of_remoteVerdict e b er h]

/-- Witness for C2: the result of an entry whose navigation timed out has
default status "Failed" with an error message present; the result of a
fully successful entry has a remote verdict and no error message. -/
theorem C2_result_invariant_witness :
    ((comparisonResultOf entryBad timeoutBehavior).status = "Failed" ∧
     (comparisonResultOf entryBad timeoutBehavior).error.isSome) ∧
    (comparisonResultOf entryGood okBehavior).error = none := by
  have h1 := C2_result_invariant entryBad timeoutBehavior
  have h2 := C2_result_invariant entryGood okBehavior
  exact ⟨⟨(h1.2.1 rfl).1, h1.1.mpr rfl⟩, h2.2.2 passedEyes rfl⟩

/-- Claim C3 (confirmed): if entry processing hits a local error, the
error is converted into the ComparisonResult for that entry (never
propagated as an exception — `runComparisons` is a total function), and
all later entries are still attempted with results computed from their own
entry and behaviour only. -/
theorem C3_failure_isolation (e : UrlEntry) (b : EntryBehavior) (m : String)
    (es : List UrlEntry) (bs : List EntryBehavior) (s : TestSummary)
    (h : localError b = some m) :
    (runComparisons (e :: es) (b :: bs) s).eyesResults =
      s.eyesResults ++
        ({ initResult e with error := some m } :: listResultsOf es bs) := by
  rw [runComparisons_eyesResults]
  have : listResultsOf (e :: es) (b :: bs) =
      comparisonResultOf e b :: listResultsOf es bs := rfl
  rw [this, result_of_localError e b m h]

/-- Witness for C3: the unreachable Bad entry times out first, yet the
following Good entry still yields its Passed result, unaffected. -/
theorem C3_failure_isolation_witness :
    (runComparisons [entryBad, entryGood] [timeoutBehavior, okBehavior]
        initialSummary).eyesResults =
      [{ initResult entryBad with error := some "Timeout 60000ms exceeded" },
       comparisonResultOf entryGood okBehavior] := by
  have h := C3_failure_isolation entryBad timeoutBehavior
    "Timeout 60000ms exceeded" [entryGood] [okBehavior] initialSummary rfl
  simpa [listResultsOf, initialSummary] using h

/-- Claim C4 (confirmed): per entry, if `eyes.open` succeeded and a later
step (navigation, checkpoint, or close) threw, `abortIfNotClosed` is
invoked exactly once; if `close` returned (with or without results),
`abortIfNotClosed` is never invoked. -/
theorem C4_cleanup_discipline (e : UrlEntry) (b : EntryBehavior)
    (s : TestSummary) :
    (b.openOutcome = .ok →
      ((∃ m, b.gotoOutcome = .throw m) ∨
       (b.gotoOutcome = .ok ∧ ∃ m, b.checkOutcome = .throw m) ∨
       (b.gotoOutcome = .ok ∧ b.checkOutcome = .ok ∧
         ∃ m, b.closeOutcome = .error m)) →
      (performEyesComparison e b s).2.2 = 1) ∧
    (b.openOutcome = .ok → b.gotoOutcome = .ok → b.checkOutcome = .ok →
      ∀ res, b.closeOutcome = .ok res →
        (performEyesComparison e b s).2.2 = 0) := by
  obtain ⟨o, g, c, cl, _⟩ := b
  cases o <;> cases g <;> cases c <;> rcases cl with m | _ | er <;>
    constructor <;> intros <;>
    simp_all [performEyesComparison, catchComparison]

/-- Witness for C4: a session opened and then failed by navigation is
aborted once; a session opened and closed (even on a close returning null,
and on a Passed close) is never aborted. -/
theorem C4_cleanup_discipline_witness :
    (performEyesComparison entryBad timeoutBehavior initialSummary).2.2 = 1 ∧
    (performEyesComparison entryBad closeThrowBehavior initialSummary).2.2 = 1 ∧
    (performEyesComparison entryGood okBehavior initialSummary).2.2 = 0 ∧
    (performEyesComparison entryGood nullCloseBehavior initialSummary).2.2 = 0 := by
  refine ⟨?_, ?_, ?_, ?_⟩
  · exact (C4_cleanup_discipline entryBad timeoutBehavior initialSummary).1 rfl
      (Or.inl ⟨"Timeout 60000ms exceeded", rfl⟩)
  · exact (C4_cleanup_discipline entryBad closeThrowBehavior initialSummary).1 rfl
      (Or.inr (Or.inr ⟨rfl, rfl, "close failed", rfl⟩))
  · exact (C4_cleanup_discipline entryGood okBehavior initialSummary).2 rfl rfl rfl
      (some passedEyes) rfl
  · exact (C4_cleanup_discipline entryGood nullCloseBehavior initialSummary).2 rfl rfl rfl
      none rfl

/-- Claim C5 (confirmed): a sequential batch over N entries yields exactly
N results, and the i-th result is the result of the i-th input entry
(carrying its url and name), in input order. -/
theorem C5_order_preservation (es : List UrlEntry) (bs : List EntryBehavior) :
    (runComparisons es bs initialSummary).eyesResults.length = es.length ∧
    (∀ i d de, i < es.length →
      ((runComparisons es bs initialSummary).eyesResults.getD i d).url =
          (es.getD i de).url ∧
      ((runComparisons es bs initialSummary).eyesResults.getD i d).testName =
          (es.getD i de).name ∧
      (runComparisons es bs initialSummary).eyesResults.getD i d =
        comparisonResultOf (es.getD i de) (bs.getD i defaultBehavior)) := by
  have hres : (runComparisons es bs initialSummary).eyesResults =
      listResultsOf es bs := by
    rw [runComparisons_eyesResults]
    rfl
  constructor
  · rw [hres, listResultsOf_length]
  · intro i d de hi
    rw [hres, listResultsOf_getD es bs i hi d de]
    exact ⟨(result_entry_fields _ _).1, (result_entry_fields _ _).2, rfl⟩

/-- Witness for C5: a two-entry batch yields two results; the second
result belongs to the second entry ("Bad") even though the batch order put
it after a successful entry. -/
theorem C5_order_preservation_witness :
    (runComparisons [entryGood, entryBad] [okBehavior, timeoutBehavior]
        initialSummary).eyesResults.length = 2 ∧
    ((runComparisons [entryGood, entryBad] [okBehavior, timeoutBehavior]
        initialSummary).eyesResults.getD 1 (initResult entryGood)).testName =
      "Bad" := by
  have h := C5_order_preservation [entryGood, entryBad]
    [okBehavior, timeoutBehavior]
  refine ⟨h.1, ?_⟩
  have h2 := (h.2 1 (initResult entryGood) entryGood (by decide)).2.1
  simpa using h2

/-- Claim C1, counterexample: `totalUrls` is accumulated from the source
CSV in Step 3 while the results come from the target CSV in Step 4, so
with one source row and two target rows the summary has
succeeded + failed = 2 results but total = 1 — the chain
"succeeded + failed == total == length(results)" fails. -/
theorem C1_counterexample :
    ¬ ((fullRun [rowGood] [rowGood, rowBad] [okBehavior]
          [okBehavior, okBehavior]).successfulComparisons +
        (fullRun [rowGood] [rowGood, rowBad] [okBehavior]
          [okBehavior, okBehavior]).failedComparisons =
        (fullRun [rowGood] [rowGood, rowBad] [okBehavior]
          [okBehavior, okBehavior]).totalUrls ∧
       (fullRun [rowGood] [rowGood, rowBad] [okBehavior]
          [okBehavior, okBehavior]).totalUrls =
        (fullRun [rowGood] [rowGood, rowBad] [okBehavior]
          [okBehavior, okBehavior]).eyesResults.length) := by
  decide

/-- Claim C1 as amended: over every full batch run,
succeeded + failed equals the number of ComparisonResults produced
(including entries that failed locally), and the match/mismatch/missing
totals are the sums of the corresponding fields over all results; but
`totalUrls` equals the number of valid source-CSV rows, which need not
equal the number of results (those come from the target CSV). -/
theorem C1_aggregation (sourceRows targetRows : List CsvRow)
    (baselineBs comparisonBs : List EntryBehavior) :
    (fullRun sourceRows targetRows baselineBs comparisonBs).successfulComparisons +
        (fullRun sourceRows targetRows baselineBs comparisonBs).failedComparisons =
      (fullRun sourceRows targetRows baselineBs comparisonBs).eyesResults.length ∧
    (fullRun sourceRows targetRows baselineBs comparisonBs).totalMatches =
      ((fullRun sourceRows targetRows baselineBs comparisonBs).eyesResults.map
        (fun r => r.matches)).sum ∧
    (fullRun sourceRows targetRows baselineBs comparisonBs).totalMismatches =
      ((fullRun sourceRows targetRows baselineBs comparisonBs).eyesResults.map
        (fun r => r.mismatches)).sum ∧
    (fullRun sourceRows targetRows baselineBs comparisonBs).totalMissing =
      ((fullRun sourceRows targetRows baselineBs comparisonBs).eyesResults.map
        (fun r => r.missing)).sum ∧
    (fullRun sourceRows targetRows baselineBs comparisonBs).totalUrls =
      (readCsvFile sourceRows).length := by
  simp only [fullRun, step3, step4]
  have h3 := runBaselines_counters (readCsvFile sourceRows) baselineBs
    { initialSummary with
        totalUrls := initialSummary.totalUrls + (readCsvFile sourceRows).length }
  refine ⟨?_, ?_, ?_, ?_, ?_⟩
  · rw [runComparisons_succ, runComparisons_failed, runComparisons_eyesResults,
      h3.2.1, h3.2.2.1, h3.2.2.2.2.2.2]
    simpa [initialSummary] using countP_self_add_not
      (listResultsOf (readCsvFile targetRows) comparisonBs) (fun r => r.success)
  · rw [runComparisons_totalMatches, runComparisons_eyesResults,
      h3.2.2.2.1, h3.2.2.2.2.2.2]
    simp [initialSummary]
  · rw [runComparisons_totalMismatches, runComparisons_eyesResults,
      h3.2.2.2.2.1, h3.2.2.2.2.2.2]
    simp [initialSummary]
  · rw [runComparisons_totalMissing, runComparisons_eyesResults,
      h3.2.2.2.2.2.1, h3.2.2.2.2.2.2]
    simp [initialSummary]
  · rw [runComparisons_totalUrls, h3.1]
    simp [initialSummary]

/-- Claim C6 (confirmed): `readCsvFile` keeps exactly the rows whose url
and name fields are both present and non-empty, in file order; skipped
rows are not counted in `totalUrls` (Step 3) and yield no ComparisonResult
(Step 4). -/
theorem C6_reader_filtering (rows : List CsvRow)
    (bbs cbs : List EntryBehavior) :
    readCsvFile rows = (rows.filter validRow).map rowEntry ∧
    (step3 rows bbs initialSummary).totalUrls = (rows.filter validRow).length ∧
    (step4 rows cbs initialSummary).eyesResults.length =
      (rows.filter validRow).length := by
  have hread : readCsvFile rows = (rows.filter validRow).map rowEntry := by
    induction rows with
    | nil => rfl
    | cons r rs ih =>
        obtain ⟨u, n⟩ := r
        cases u with
        | none =>
            simpa [readCsvFile, List.filterMap_cons, validRow] using ih
        | some u =>
            cases n with
            | none =>
                simpa [readCsvFile, List.filterMap_cons, validRow] using ih
            | some n =>
                by_cases hu : u = "" <;> by_cases hn : n = "" <;>
                  simpa [readCsvFile, List.filterMap_cons, validRow, rowEntry,
                    hu, hn] using ih
  refine ⟨hread, ?_, ?_⟩
  · simp only [step3]
    rw [(runBaselines_counters _ _ _).1]
    simp [initialSummary, hread]
  · simp only [step4]
    rw [runComparisons_eyesResults]
    simp [initialSummary, listResultsOf_length, hread]

/-- Claim C7 (confirmed): the report computes the success rate as
succeeded / totalComparisons * 100 when there was at least one comparison,
and for an empty batch (totalComparisons = 0) the branch is guarded: the
rate is 0 and the report line reads "0%" (no NaN, no division fault). -/
theorem C7_success_rate (s : TestSummary) :
    (0 < totalComparisons s →
      successRate s =
        (s.successfulComparisons : ℚ) / (totalComparisons s : ℚ) * 100) ∧
    (totalComparisons s = 0 →
      successRate s = 0 ∧
      successRateLine s = "- **Success Rate**: 0%") := by
  constructor
  · intro h
    simp [successRate, h]
  · intro h
    have h0 : ¬ 0 < totalComparisons s := by omega
    refine ⟨by simp [successRate, h0], ?_⟩
    simp [successRateLine, successRateDisplay, h0]

/-- Witness for C7: a batch with no comparison results renders a 0% rate. -/
theorem C7_success_rate_witness :
    successRate (runComparisons [] [] initialSummary) = 0 ∧
    successRateLine (runComparisons [] [] initialSummary) =
      "- **Success Rate**: 0%" := by
  exact (C7_success_rate (runComparisons [] [] initialSummary)).2 rfl

/-- Claim C8, counterexample: a results object with matches = -5 drives
the summary total to -5 — the negative count is added as-is, not clamped
to zero before accumulation. -/
theorem C8_counterexample :
    (performEyesComparison entryGood negativeBehavior
        initialSummary).2.1.totalMatches = -5 ∧
    ¬ (0 ≤ (performEyesComparison entryGood negativeBehavior
        initialSummary).2.1.totalMatches) := by
  decide

/-- Claim C8 as amended: accumulating a ComparisonResult into the running
summary never throws (the update is a total function), but malformed
negative counts are not clamped: each result contributes its
matches/mismatches/missing values to the totals unchanged, so a negative
count propagates into (and can decrease) the summary totals. -/
theorem C8_accumulate_total_unclamped (e : UrlEntry) (b : EntryBehavior)
    (s : TestSummary) :
    (performEyesComparison e b s).2.1.totalMatches =
      s.totalMatches + (performEyesComparison e b s).1.matches ∧
    (performEyesComparison e b s).2.1.totalMismatches =
      s.totalMismatches + (performEyesComparison e b s).1.mismatches ∧
    (performEyesComparison e b s).2.1.totalMissing =
      s.totalMissing + (performEyesComparison e b s).1.missing := by
  exact ⟨perform_totalMatches e b s, perform_totalMismatches e b s,
    perform_totalMissing e b s⟩

/-- Claim C9 (confirmed): `success` is set by comparing the remote verdict
against "Passed"; over a batch, succeeded counts exactly the results whose
status is "Passed" and failed is total - succeeded, so any other verdict —
Unresolved included — counts as failed. -/
theorem C9_succeeded_semantics (es : List UrlEntry) (bs : List EntryBehavior) :
    (runComparisons es bs initialSummary).successfulComparisons =
      ((runComparisons es bs initialSummary).eyesResults.filter
        (fun r => r.status == "Passed")).length ∧
    (runComparisons es bs initialSummary).failedComparisons =
      (runComparisons es bs initialSummary).eyesResults.length -
        (runComparisons es bs initialSummary).successfulComparisons ∧
    (∀ e b er, remoteVerdict b = some er →
      (comparisonResultOf e b).success = (er.status == "Passed")) := by
  have hres : (runComparisons es bs initialSummary).eyesResults =
      listResultsOf es bs := by
    rw [runComparisons_eyesResults]
    rfl
  have hsucc := runComparisons_succ es bs initialSummary
  have hfail := runComparisons_failed es bs initialSummary
  have hcount : (listResultsOf es bs).countP (fun r => r.success) =
      (listResultsOf es bs).countP (fun r => r.status == "Passed") := by
    apply List.countP_congr
    intro r hr
    obtain ⟨e, b, rfl⟩ := mem_listResultsOf es bs r hr
    rw [result_success_eq_status e b]
  have htot := countP_self_add_not (listResultsOf es bs) (fun r => r.success)
  refine ⟨?_, ?_, ?_⟩
  · rw [hsucc, hres, hcount, List.countP_eq_length_filter]
    simp [initialSummary]
  · rw [hsucc, hfail, hres, listResultsOf_length]
    have hlen := listResultsOf_length es bs
    simp only [initialSummary, Nat.zero_add]
    omega
  · intro e b er h
    rw [result_of_remoteVerdict e b er h]

/-- Witness for C9: an Unresolved verdict yields success = false (it is
counted as failed, exactly like Failed would be), a Passed verdict yields
success = true. -/
theorem C9_succeeded_semantics_witness :
    (comparisonResultOf entryGood unresolvedBehavior).success = false ∧
    (comparisonResultOf entryGood okBehavior).success = true := by
  have h := (C9_succeeded_semantics [] []).2.2
  constructor
  · have h1 := h entryGood unresolvedBehavior unresolvedEyes rfl
    simpa [unresolvedEyes, passedEyes] using h1
  · have h2 := h entryGood okBehavior passedEyes rfl
    simpa [passedEyes] using h2

/-- Claim C10 (confirmed): when the session closes successfully but
returns a null results object, the entry is recorded as a local failure —
success = false, errorMessage "No results returned from Eyes", failed
counter incremented (succeeded untouched), no abort — and the batch
continues: every remaining entry still produces its result. -/
theorem C10_null_close_results (e : UrlEntry) (b : EntryBehavior)
    (s : TestSummary) (ho : b.openOutcome = .ok) (hg : b.gotoOutcome = .ok)
    (hc : b.checkOutcome = .ok) (hcl : b.closeOutcome = .ok none) :
    (performEyesComparison e b s).1.success = false ∧
    (performEyesComparison e b s).1.error =
      some "No results returned from Eyes" ∧
    (performEyesComparison e b s).2.1.failedComparisons =
      s.failedComparisons + 1 ∧
    (performEyesComparison e b s).2.1.successfulComparisons =
      s.successfulComparisons ∧
    (performEyesComparison e b s).2.2 = 0 ∧
    (∀ es bs, (runComparisons (e :: es) (b :: bs) s).eyesResults.length =
      s.eyesResults.length + 1 + es.length) := by
  obtain ⟨o, g, c, cl, ab⟩ := b
  simp only at ho hg hc hcl
  subst ho hg hc hcl
  refine ⟨rfl, rfl, rfl, rfl, rfl, ?_⟩
  intro es bs
  rw [runComparisons_eyesResults]
  simp [listResultsOf, listResultsOf_length]
  omega

/-- Witness for C10: concrete null-results close on the first of two
entries; both results are still produced. -/
theorem C10_null_close_results_witness :
    (performEyesComparison entryGood nullCloseBehavior initialSummary).1.error =
      some "No results returned from Eyes" ∧
    (performEyesComparison entryGood nullCloseBehavior
        initialSummary).2.1.failedComparisons = 1 ∧
    (runComparisons [entryGood, entryBad] [nullCloseBehavior, okBehavior]
        initialSummary).eyesResults.length = 2 := by
  have h := C10_null_close_results entryGood nullCloseBehavior initialSummary
    rfl rfl rfl rfl
  exact ⟨h.2.1, h.2.2.1, h.2.2.2.2.2 [entryBad] [okBehavior]⟩
